import Mathlib

/-!
Shallow embedding of the gtm-storage Go client library
(package `client`, file `client.go`, plus `examples/main.go`).

The client is a thin typed wrapper over HTTP: each public operation
builds one HTTP request and interprets one HTTP response.  We embed it
by splitting every operation `Op` into

  * `Op_request …`  : the `Request` value the Go code hands to
    `httpClient.Do` (method, URL, headers, body), and
  * `Op … (resp : Response)` : the pure interpretation of the HTTP
    response the server returned, yielding `Except GoError result`
    exactly as the Go code returns `(result, error)`.

The HTTP transport, the Go standard library's XML decoder and its
`time.Parse` are external collaborators; where the client reads one of
their outputs we model that output faithfully (see the doc comments on
`Response.contentLength`, `parseHTTPTime`, and the `decoded` argument
of `ListObjects`).
-/

set_option autoImplicit false
set_option linter.unusedVariables false

namespace GTMStorage

/-- HTTP methods used by the client. -/
inductive Method where
  | GET
  | POST
  | PUT
  | DELETE
  | HEAD
deriving Repr, DecidableEq

/-- Which `http.Client` a request is issued through: the client's
configured `httpClient`, or the package-level `http.DefaultClient`
(used only by `PutObjectFromFile`). -/
inductive ClientKind where
  | configured
  | defaultClient
deriving Repr, DecidableEq

/-- Request bodies the client ever sends: none, or a multipart form
with a single file field (`writer.CreateFormFile("file", filename)`
followed by copying the reader's content). -/
inductive RequestBody where
  | empty
  | multipart (fieldName : String) (filename : String) (content : String)
deriving Repr, DecidableEq

/-- An outgoing HTTP request as the Go client builds it. -/
structure Request where
  method : Method
  url : String
  headers : List (String × String)
  body : RequestBody
  viaClient : ClientKind
deriving Repr, DecidableEq

/-- An incoming HTTP response: status code, headers, and the body text
(the Go code reads bodies with `io.ReadAll`, so a `String` suffices). -/
structure Response where
  statusCode : Nat
  headers : List (String × String)
  body : String
deriving Repr, DecidableEq

/-- Models `http.Header.Set`: replaces any existing value for the key. -/
def setHeader (hs : List (String × String)) (k v : String) : List (String × String) :=
  (k, v) :: hs.filter (fun p => p.1 != k)

/-- Models `http.Header.Get`: first value for the key, or `""` if absent. -/
def getHeader (hs : List (String × String)) (k : String) : String :=
  match hs.find? (fun p => p.1 == k) with
  | some p => p.2
  | none => ""

/-- Whether a header with the given key is present at all. -/
def hasHeader (hs : List (String × String)) (k : String) : Bool :=
  hs.any (fun p => p.1 == k)

/-- Header lookup on a response. -/
def Response.header (r : Response) (k : String) : String :=
  getHeader r.headers k

/-- Decimal value of a digit list (most significant first). -/
def digitsVal (l : List Char) : Nat :=
  l.foldl (fun a c => a * 10 + (c.toNat - 48)) 0

/-- Parses a nonempty all-digit decimal string, `none` otherwise. -/
def parseDigits (s : String) : Option Nat :=
  if s.data ≠ [] ∧ s.data.all Char.isDigit then some (digitsVal s.data) else none

/-- Models how `net/http` populates `Response.ContentLength` from the
`Content-Length` header: a valid nonnegative decimal gives its value;
an absent or malformed header gives `-1` ("length unknown"), per the
Go standard library's documentation of `Response.ContentLength`. -/
def Response.contentLength (r : Response) : Int :=
  match parseDigits (r.header "Content-Length") with
  | some n => (n : Int)
  | none => -1

/-- Models `strings.TrimRight(s, "/")`: removes every trailing `/`. -/
def trimRightSlash (s : String) : String :=
  ⟨(s.data.reverse.dropWhile (fun c => c == '/')).reverse⟩

/-- Models `strings.Trim(s, "\"")`: removes leading and trailing quotes. -/
def trimQuotes (s : String) : String :=
  ⟨((s.data.dropWhile (fun c => c == '"')).reverse.dropWhile (fun c => c == '"')).reverse⟩

/-- Models `strings.Contains(s, sub)`. -/
def strContains (s sub : String) : Bool :=
  (List.range (s.data.length + 1)).any (fun i => sub.data.isPrefixOf (s.data.drop i))

/-- Splits a character list at every character satisfying `p`, keeping
empty pieces — the splitting behaviour of Go `strings.Split` (for a
one-character separator) and the first phase of `strings.Fields`. -/
def splitByPred (p : Char → Bool) : List Char → List (List Char)
  | [] => [[]]
  | c :: cs =>
    match splitByPred p cs, p c with
    | r, true => [] :: r
    | h :: t, false => (c :: h) :: t
    | [], false => [[c]]

/-- Models Go `strings.Split(s, sep)` for a single-character separator. -/
def splitStr (sep : Char) (s : String) : List String :=
  (splitByPred (fun c => c == sep) s.data).map (fun l => ⟨l⟩)

/-- Models `strings.Fields(s)`: whitespace-separated tokens, no empties. -/
def fields (s : String) : List String :=
  ((splitByPred Char.isWhitespace s.data).filter (fun l => !l.isEmpty)).map (fun l => ⟨l⟩)

/-- Uppercase hexadecimal digit for `n < 16`. -/
def hexUpper (n : Nat) : Char :=
  if n < 10 then Char.ofNat (48 + n) else Char.ofNat (55 + n)

/-- Go `url.QueryEscape` keeps ASCII letters, digits and `-_.~`. -/
def isUnreservedByte (b : Nat) : Bool :=
  (65 ≤ b && b ≤ 90) || (97 ≤ b && b ≤ 122) || (48 ≤ b && b ≤ 57) ||
    b == 45 || b == 95 || b == 46 || b == 126

/-- One byte of `url.QueryEscape` output: kept, `+` for space, or `%XX`. -/
def escapeByte (b : Nat) : String :=
  if isUnreservedByte b then String.singleton (Char.ofNat b)
  else if b == 32 then "+"
  else "%" ++ String.singleton (hexUpper (b / 16)) ++ String.singleton (hexUpper (b % 16))

/-- The UTF-8 byte values of one character (standard encoding). -/
def utf8Bytes (c : Char) : List Nat :=
  let n := c.toNat
  if n < 128 then [n]
  else if n < 2048 then [192 + n / 64, 128 + n % 64]
  else if n < 65536 then [224 + n / 4096, 128 + (n / 64) % 64, 128 + n % 64]
  else [240 + n / 262144, 128 + (n / 4096) % 64, 128 + (n / 64) % 64, 128 + n % 64]

/-- Models Go `url.QueryEscape` over the UTF-8 bytes of `s`. -/
def queryEscape (s : String) : String :=
  ((s.data.flatMap utf8Bytes).map escapeByte).foldl (fun a t => a ++ t) ""

/-- Models `path/filepath.Base` on a Unix path: last path element after
stripping trailing slashes; `"."` for the empty path, `"/"` when the
path is all slashes. -/
def filepathBase (path : String) : String :=
  if path == "" then "."
  else
    let rev := path.data.reverse.dropWhile (fun c => c == '/')
    let name := rev.takeWhile (fun c => c != '/')
    if name == [] then "/" else ⟨name.reverse⟩

/-- Go `time.Time` values as produced by parsing an HTTP date; the Go
zero `time.Time` is January 1 of year 1, 00:00:00. -/
structure GoTime where
  year : Nat
  month : Nat
  day : Nat
  hour : Nat
  minute : Nat
  second : Nat
deriving Repr, DecidableEq

/-- The Go zero `time.Time` (returned by `time.Parse` on failure). -/
def zeroGoTime : GoTime := { year := 1, month := 1, day := 1, hour := 0, minute := 0, second := 0 }

/-- Exactly two decimal digits. -/
def parse2 (s : String) : Option Nat :=
  if s.data.length = 2 ∧ s.data.all Char.isDigit then some (digitsVal s.data) else none

/-- Exactly four decimal digits. -/
def parse4 (s : String) : Option Nat :=
  if s.data.length = 4 ∧ s.data.all Char.isDigit then some (digitsVal s.data) else none

/-- Month number of a three-letter English month abbreviation. -/
def monthNum (m : String) : Option Nat :=
  match (["Jan", "Feb", "Mar", "Apr", "May", "Jun",
          "Jul", "Aug", "Sep", "Oct", "Nov", "Dec"].indexOf m) with
  | i => if i < 12 then some (i + 1) else none

/-- `hh:mm:ss` with in-range components. -/
def parseClock (s : String) : Option (Nat × Nat × Nat) :=
  match splitStr ':' s with
  | [h, m, sec] => do
    let hv ← parse2 h
    let mv ← parse2 m
    let sv ← parse2 sec
    if hv < 24 ∧ mv < 60 ∧ sv < 60 then some (hv, mv, sv) else none
  | _ => none

/-- Weekday tokens of `http.TimeFormat` (followed by the comma). -/
def weekdayNames : List String := ["Mon,", "Tue,", "Wed,", "Thu,", "Fri,", "Sat,", "Sun,"]

/-- Models `time.Parse(http.TimeFormat, s)` for the layout
`Mon, 02 Jan 2006 15:04:05 GMT`: `none` models the error case (the Go
call then also returns the zero `time.Time` as its first result). -/
def parseHTTPTime (s : String) : Option GoTime :=
  match splitStr ' ' s with
  | [wd, dd, mon, yyyy, clock, tz] =>
    if weekdayNames.contains wd ∧ tz = "GMT" then do
      let d ← parse2 dd
      let m ← monthNum mon
      let y ← parse4 yyyy
      let c ← parseClock clock
      if 1 ≤ d ∧ d ≤ 31 then
        some { year := y, month := m, day := d, hour := c.1, minute := c.2.1, second := c.2.2 }
      else none
    else none
  | _ => none

/-! ## Data model (`client.go` type declarations) -/

/-- `ObjectInfo` from `client.go`: object metadata. -/
structure ObjectInfo where
  Key : String
  Name : String
  ContentType : String
  LastModified : GoTime
  ETag : String
  Size : Int
deriving Repr, DecidableEq

/-- `ListBucketResult` from `client.go`: the decoded XML listing. -/
structure ListBucketResult where
  Name : String
  Prefix : String
  Contents : List ObjectInfo
deriving Repr, DecidableEq

/-- `UploadResult` from `client.go`. -/
structure UploadResult where
  Key : String
  ETag : String
  PreviewURL : String
  ThumbnailURL : String
deriving Repr, DecidableEq

/-- `ClientOptions` from `client.go`.  The `*http.Client` is modelled by
its timeout (nanoseconds), the only observable the library reads. -/
structure ClientOptions where
  BaseURL : String := ""
  APIKey : String := ""
  HTTPClient : Option Nat := none
  Timeout : Nat := 0
deriving Repr, DecidableEq

/-- `Client` from `client.go`. -/
structure Client where
  baseURL : String
  httpClientTimeout : Nat
  apiKey : String
deriving Repr, DecidableEq

/-- The Go errors the client returns, as structured values: the Go code
builds them with `fmt.Errorf`; `operationError ctx body status` stands
for the message `ctx ++ ": " ++ body ++ " (status: " ++ status ++ ")"`. -/
inductive GoError where
  | operationError (context : String) (body : String) (status : Nat)
  | decodeError (context : String)
  | transportError (context : String)
deriving Repr, DecidableEq

/-- The message text carried by a `GoError`, as `fmt.Errorf` renders it. -/
def GoError.render : GoError → String
  | .operationError ctx body status => ctx ++ ": " ++ body ++ " (status: " ++ toString status ++ ")"
  | .decodeError ctx => ctx
  | .transportError ctx => ctx

/-! ## Client construction and request building -/

/-- `NewClient` from `client.go`: default timeout 30s when no custom
HTTP client and a zero timeout are supplied; trailing slashes stripped
from the base URL. -/
def NewClient (options : ClientOptions) : Client :=
  let timeout :=
    match options.HTTPClient with
    | some t => t
    | none => if options.Timeout = 0 then 30 * 1000000000 else options.Timeout
  { baseURL := trimRightSlash options.BaseURL
    httpClientTimeout := timeout
    apiKey := options.APIKey }

/-- `addAuth` from `client.go`: when an API key is configured, sets the
`Authorization: Bearer …` header and the `X-API-Key` header; otherwise
leaves the request untouched. -/
def addAuth (c : Client) (req : Request) : Request :=
  if c.apiKey ≠ "" then
    { req with
        headers := setHeader (setHeader req.headers "Authorization" ("Bearer " ++ c.apiKey))
          "X-API-Key" c.apiKey }
  else req

/-- The request `MakeBucket` issues: `POST {base}/api/{bucket}`, auth attached. -/
def MakeBucket_request (c : Client) (bucketName : String) : Request :=
  addAuth c
    { method := .POST
      url := c.baseURL ++ "/api/" ++ bucketName
      headers := []
      body := .empty
      viaClient := .configured }

/-- The request `DeleteBucket` issues: `DELETE {base}/api/{bucket}`, auth attached. -/
def DeleteBucket_request (c : Client) (bucketName : String) : Request :=
  addAuth c
    { method := .DELETE
      url := c.baseURL ++ "/api/" ++ bucketName
      headers := []
      body := .empty
      viaClient := .configured }

/-- Models `writer.FormDataContentType()`; the randomly generated
multipart boundary is abstracted as a fixed token. -/
def formDataContentType : String := "multipart/form-data; boundary=boundary"

/-- The request `PutObject` issues: `PUT {base}/api/{bucket}/{key}`
with a single-file multipart body, multipart content type, auth attached. -/
def PutObject_request (c : Client) (bucketName objectKey : String)
    (content filename : String) : Request :=
  addAuth c
    { method := .PUT
      url := c.baseURL ++ "/api/" ++ bucketName ++ "/" ++ objectKey
      headers := setHeader [] "Content-Type" formDataContentType
      body := .multipart "file" filename content
      viaClient := .configured }

/-- The request `GetObject` issues: `GET {base}/api/{bucket}/{key}`, no auth. -/
def GetObject_request (c : Client) (bucketName objectKey : String) : Request :=
  { method := .GET
    url := c.baseURL ++ "/api/" ++ bucketName ++ "/" ++ objectKey
    headers := []
    body := .empty
    viaClient := .configured }

/-- The request `GetObjectRange` issues: like `GetObject`, plus a
`Range: bytes=<start>-<end>` header exactly when `start > 0 || end > 0`. -/
def GetObjectRange_request (c : Client) (bucketName objectKey : String)
    (startPos endPos : Int) : Request :=
  let req : Request :=
    { method := .GET
      url := c.baseURL ++ "/api/" ++ bucketName ++ "/" ++ objectKey
      headers := []
      body := .empty
      viaClient := .configured }
  if startPos > 0 ∨ endPos > 0 then
    { req with
        headers := setHeader req.headers "Range"
          ("bytes=" ++ toString startPos ++ "-" ++ toString endPos) }
  else req

/-- The request `DeleteObject` issues: `DELETE {base}/api/{bucket}/{key}`, auth attached. -/
def DeleteObject_request (c : Client) (bucketName objectKey : String) : Request :=
  addAuth c
    { method := .DELETE
      url := c.baseURL ++ "/api/" ++ bucketName ++ "/" ++ objectKey
      headers := []
      body := .empty
      viaClient := .configured }

/-- The request `HeadObject` issues: `HEAD {base}/api/{bucket}/{key}`, no auth. -/
def HeadObject_request (c : Client) (bucketName objectKey : String) : Request :=
  { method := .HEAD
    url := c.baseURL ++ "/api/" ++ bucketName ++ "/" ++ objectKey
    headers := []
    body := .empty
    viaClient := .configured }

/-- The request `ListObjects` issues: `GET {base}/api/{bucket}`, with a
`?prefix=…` query (URL-encoded via `url.Values.Encode`) exactly when a
non-empty prefix is supplied; no auth. -/
def ListObjects_request (c : Client) (bucketName pre : String) : Request :=
  let base := c.baseURL ++ "/api/" ++ bucketName
  { method := .GET
    url := if pre ≠ "" then base ++ "?" ++ ("prefix=" ++ queryEscape pre) else base
    headers := []
    body := .empty
    viaClient := .configured }

/-! ## Response interpretation -/

/-- `MakeBucket` from `client.go`, response interpretation: any status
other than 200 fails with the body text and status code. -/
def MakeBucket (c : Client) (bucketName : String) (resp : Response) : Except GoError Unit :=
  if resp.statusCode ≠ 200 then
    .error (.operationError "failed to create bucket" resp.body resp.statusCode)
  else .ok ()

/-- `DeleteBucket` from `client.go`, response interpretation. -/
def DeleteBucket (c : Client) (bucketName : String) (resp : Response) : Except GoError Unit :=
  if resp.statusCode ≠ 200 then
    .error (.operationError "failed to delete bucket" resp.body resp.statusCode)
  else .ok ()

/-- The label Go scans upload-response lines for to find the preview
URL (`"预览地址:"`). -/
def previewLabel : String := "预览地址:"

/-- The label Go scans upload-response lines for to find the thumbnail
URL (`"缩略图地址:"`). -/
def thumbLabel : String := "缩略图地址:"

/-- One iteration of `PutObject`'s `for _, line := range lines` loop:
when the line contains a label and has at least two whitespace-separated
tokens, the corresponding URL field is overwritten with the line's last
token. -/
def scanLine (r : UploadResult) (line : String) : UploadResult :=
  let r1 :=
    if strContains line previewLabel then
      let parts := fields line
      if parts.length > 1 then { r with PreviewURL := parts.getLastD "" } else r
    else r
  if strContains line thumbLabel then
    let parts := fields line
    if parts.length > 1 then { r1 with ThumbnailURL := parts.getLastD "" } else r1
  else r1

/-- The URL-extraction block of `PutObject`: the whole line scan runs
only when the body contains the preview label at all. -/
def extractURLs (r : UploadResult) (bodyStr : String) : UploadResult :=
  if strContains bodyStr previewLabel then
    (splitStr (Char.ofNat 10) bodyStr).foldl scanLine r
  else r

/-- `PutObject` from `client.go`, response interpretation: on 200, the
result's key is the requested key, the ETag comes from the `ETag`
response header, and the preview/thumbnail URLs from the body line scan. -/
def PutObject (c : Client) (bucketName objectKey : String) (resp : Response) :
    Except GoError UploadResult :=
  if resp.statusCode ≠ 200 then
    .error (.operationError "failed to upload object" resp.body resp.statusCode)
  else
    .ok (extractURLs
      { Key := objectKey, ETag := resp.header "ETag", PreviewURL := "", ThumbnailURL := "" }
      resp.body)

/-- `GetObject` from `client.go`, response interpretation: on 200 the
(streamed) body is handed to the caller. -/
def GetObject (c : Client) (bucketName objectKey : String) (resp : Response) :
    Except GoError String :=
  if resp.statusCode ≠ 200 then
    .error (.operationError "failed to get object" resp.body resp.statusCode)
  else .ok resp.body

/-- `GetObjectRange` from `client.go`, response interpretation: both
200 and 206 are accepted. -/
def GetObjectRange (c : Client) (bucketName objectKey : String) (startPos endPos : Int)
    (resp : Response) : Except GoError String :=
  if resp.statusCode ≠ 200 ∧ resp.statusCode ≠ 206 then
    .error (.operationError "failed to get object" resp.body resp.statusCode)
  else .ok resp.body

/-- `DeleteObject` from `client.go`, response interpretation. -/
def DeleteObject (c : Client) (bucketName objectKey : String) (resp : Response) :
    Except GoError Unit :=
  if resp.statusCode ≠ 200 then
    .error (.operationError "failed to delete object" resp.body resp.statusCode)
  else .ok ()

/-- `HeadObject` from `client.go`, response interpretation: on 200 the
metadata is derived from response headers only; the `Last-Modified`
parse error is discarded (`lastModified, _ := time.Parse(…)`), so a
missing or malformed date yields the zero time. -/
def HeadObject (c : Client) (bucketName objectKey : String) (resp : Response) :
    Except GoError ObjectInfo :=
  if resp.statusCode ≠ 200 then
    .error (.operationError "failed to get object metadata" resp.body resp.statusCode)
  else
    .ok { Key := objectKey
          Name := ""
          ContentType := resp.header "Content-Type"
          LastModified := (parseHTTPTime (resp.header "Last-Modified")).getD zeroGoTime
          ETag := trimQuotes (resp.header "ETag")
          Size := resp.contentLength }

/-- `ListObjects` from `client.go`, response interpretation.  `decoded`
is the outcome of the Go standard library's XML decoder on the response
body (`xml.NewDecoder(resp.Body).Decode(&result)`): `some r` on a
well-formed document, `none` on a decode error.  On 200 the client
returns `r.Contents` unchanged. -/
def ListObjects (c : Client) (bucketName pre : String) (resp : Response)
    (decoded : Option ListBucketResult) : Except GoError (List ObjectInfo) :=
  if resp.statusCode ≠ 200 then
    .error (.operationError "failed to list objects" resp.body resp.statusCode)
  else
    match decoded with
    | some r => .ok r.Contents
    | none => .error (.decodeError "failed to parse response")

/-- The request `PutObjectFromFile` issues first: an HTTP `HEAD` to
`filePath` itself, through `http.DefaultClient` (not the client's
configured transport); no local file is ever opened. -/
def PutObjectFromFile_headRequest (filePath : String) : Request :=
  { method := .HEAD
    url := filePath
    headers := []
    body := .empty
    viaClient := .defaultClient }

/-- The upload request `PutObjectFromFile` issues when the HEAD
succeeds: a `PutObject` request whose content is the HEAD response's
body and whose multipart filename is `filepath.Base(filePath)`. -/
def PutObjectFromFile_uploadRequest (c : Client) (bucketName objectKey filePath : String)
    (file : Response) : Request :=
  PutObject_request c bucketName objectKey file.body (filepathBase filePath)

/-- `PutObjectFromFile` from `client.go`: `headOutcome` is the result
of `http.DefaultClient.Head(filePath)`; on a transport error the upload
is never attempted, otherwise the call behaves as `PutObject`. -/
def PutObjectFromFile (c : Client) (bucketName objectKey filePath : String)
    (headOutcome : Except String Response) (uploadResp : Response) :
    Except GoError UploadResult :=
  match headOutcome with
  | .error e => .error (.transportError ("failed to open file: " ++ e))
  | .ok _ => PutObject c bucketName objectKey uploadResp

/-- `GetObjectURL` from `client.go`: pure string composition. -/
def GetObjectURL (c : Client) (bucketName objectKey : String) : String :=
  c.baseURL ++ "/api/" ++ bucketName ++ "/" ++ objectKey

/-! ## Characterizations of the upload body scan -/

/-- A line that makes the scan overwrite `PreviewURL`: it contains the
preview label and has at least two whitespace-separated tokens. -/
def isPreviewLine (line : String) : Bool :=
  strContains line previewLabel && decide ((fields line).length > 1)

/-- A line that makes the scan overwrite `ThumbnailURL`. -/
def isThumbLine (line : String) : Bool :=
  strContains line thumbLabel && decide ((fields line).length > 1)

/-- The last whitespace-separated token of a line (`""` when none). -/
def lastTok (line : String) : String :=
  (fields line).getLastD ""

/-- The last token of the last line satisfying `p`, or `acc` when no
line satisfies `p` — what one URL field of the scan ends up holding. -/
def scanTok (p : String → Bool) : String → List String → String
  | acc, [] => acc
  | acc, l :: ls => scanTok p (if p l then lastTok l else acc) ls

/-! ## Concrete fixtures used by witnesses and counterexamples -/

/-- A concrete client with an API key configured. -/
def cDemo : Client := NewClient { BaseURL := "http://h/", APIKey := "secret" }

/-- A concrete client with no API key. -/
def cNoKey : Client := NewClient { BaseURL := "http://h", APIKey := "" }

/-- A concrete failing response. -/
def respBad : Response := { statusCode := 500, headers := [], body := "boom" }

/-- A concrete 200 response with ETag and Content-Length headers. -/
def respOK : Response :=
  { statusCode := 200, headers := [("ETag", "\"e1\""), ("Content-Length", "13")], body := "done" }

/-- A concrete 200 response carrying no headers at all. -/
def respNoHeaders : Response := { statusCode := 200, headers := [], body := "" }

/-- A 200 listing response (the XML text itself is consumed by the
external decoder, so its exact content is irrelevant here). -/
def listResp : Response :=
  { statusCode := 200, headers := [], body := "<ListBucketResult></ListBucketResult>" }

/-- A decoded listing whose only key does not begin with the prefix
`"photos/"` that will be requested. -/
def decodedMixed : ListBucketResult :=
  { Name := "b", Prefix := "photos/",
    Contents := [{ Key := "docs/c.txt", Name := "c.txt", ContentType := "text/plain",
                   LastModified := zeroGoTime, ETag := "e", Size := 5 }] }

/-- A decoded listing whose keys all begin with `"photos/"`. -/
def decodedPhotos : ListBucketResult :=
  { Name := "b", Prefix := "photos/",
    Contents := [{ Key := "photos/a.jpg", Name := "a.jpg", ContentType := "image/jpeg",
                   LastModified := zeroGoTime, ETag := "ea", Size := 7 },
                 { Key := "photos/b.jpg", Name := "b.jpg", ContentType := "image/jpeg",
                   LastModified := zeroGoTime, ETag := "eb", Size := 9 }] }

/-- A 200 upload response whose body has a thumbnail-labeled line but
no preview label anywhere. -/
def respThumbOnly : Response :=
  { statusCode := 200, headers := [("ETag", "abc")], body := "缩略图地址: http://t" }

/-- A 200 upload response whose body has both labeled lines. -/
def respBothURLs : Response :=
  { statusCode := 200, headers := [("ETag", "abc")]
    body := "预览地址: http://p" ++ String.singleton (Char.ofNat 10) ++ "缩略图地址: http://t" }

/-! ## Helper lemmas -/

theorem find?_filter_of_imp {α : Type} (p q : α → Bool) (l : List α)
    (h : ∀ a, p a = true → q a = true) : (l.filter q).find? p = l.find? p := by
  induction l with
  | nil => rfl
  | cons x xs ih =>
    by_cases hq : q x = true
    · rw [List.filter_cons_of_pos hq]
      by_cases hp : p x = true
      · rw [List.find?_cons_of_pos _ hp, List.find?_cons_of_pos _ hp]
      · rw [List.find?_cons_of_neg _ hp, List.find?_cons_of_neg _ hp, ih]
    · have hp : ¬p x = true := fun hpx => hq (h x hpx)
      rw [List.filter_cons_of_neg hq, List.find?_cons_of_neg _ hp, ih]

theorem getHeader_setHeader_self (hs : List (String × String)) (k v : String) :
    getHeader (setHeader hs k v) k = v := by
  unfold getHeader setHeader
  rw [List.find?_cons_of_pos _ (by simp)]

theorem getHeader_setHeader_of_ne (hs : List (String × String)) (k kx v : String)
    (h : kx ≠ k) : getHeader (setHeader hs k v) kx = getHeader hs kx := by
  unfold getHeader setHeader
  rw [List.find?_cons_of_neg _ (by simp; exact Ne.symm h), find?_filter_of_imp]
  intro a ha
  have ha1 : a.1 = kx := by simpa using ha
  simp [ha1, h]

theorem addAuth_auth_headers (c : Client) (req : Request) (h : c.apiKey ≠ "") :
    getHeader (addAuth c req).headers "Authorization" = "Bearer " ++ c.apiKey ∧
    getHeader (addAuth c req).headers "X-API-Key" = c.apiKey := by
  unfold addAuth
  rw [if_pos h]
  refine ⟨?_, ?_⟩
  · rw [getHeader_setHeader_of_ne _ _ _ _ (by decide), getHeader_setHeader_self]
  · rw [getHeader_setHeader_self]

theorem addAuth_of_empty (c : Client) (req : Request) (h : c.apiKey = "") :
    addAuth c req = req := by
  unfold addAuth
  rw [if_neg (by simp [h])]

theorem addAuth_method (c : Client) (req : Request) :
    (addAuth c req).method = req.method := by
  unfold addAuth; split <;> rfl

theorem addAuth_url (c : Client) (req : Request) :
    (addAuth c req).url = req.url := by
  unfold addAuth; split <;> rfl

theorem addAuth_body (c : Client) (req : Request) :
    (addAuth c req).body = req.body := by
  unfold addAuth; split <;> rfl

theorem addAuth_viaClient (c : Client) (req : Request) :
    (addAuth c req).viaClient = req.viaClient := by
  unfold addAuth; split <;> rfl

theorem scanLine_spec (r : UploadResult) (line : String) :
    scanLine r line =
      { Key := r.Key, ETag := r.ETag,
        PreviewURL := if isPreviewLine line then lastTok line else r.PreviewURL,
        ThumbnailURL := if isThumbLine line then lastTok line else r.ThumbnailURL } := by
  unfold scanLine isPreviewLine isThumbLine lastTok
  by_cases h1 : strContains line previewLabel <;>
    by_cases h2 : strContains line thumbLabel <;>
      by_cases h3 : (fields line).length > 1 <;>
        simp [h1, h2, h3]

theorem foldl_scanLine (lines : List String) (r : UploadResult) :
    lines.foldl scanLine r =
      { Key := r.Key, ETag := r.ETag,
        PreviewURL := scanTok isPreviewLine r.PreviewURL lines,
        ThumbnailURL := scanTok isThumbLine r.ThumbnailURL lines } := by
  induction lines generalizing r with
  | nil => simp [scanTok]
  | cons x xs ih =>
    rw [List.foldl_cons, ih, scanLine_spec]
    simp [scanTok]

theorem extractURLs_key (r : UploadResult) (s : String) :
    (extractURLs r s).Key = r.Key := by
  unfold extractURLs
  split
  · rw [foldl_scanLine]
  · rfl

theorem extractURLs_etag (r : UploadResult) (s : String) :
    (extractURLs r s).ETag = r.ETag := by
  unfold extractURLs
  split
  · rw [foldl_scanLine]
  · rfl

theorem trimRightSlash_append_slash (b : String) :
    trimRightSlash (b ++ "/") = trimRightSlash b := by
  unfold trimRightSlash
  rw [String.data_append]
  simp [List.reverse_append, List.dropWhile_cons]

/-! ## Claims -/

/-- C1: for every operation (MakeBucket, DeleteBucket, PutObject,
GetObject, GetObjectRange, DeleteObject, HeadObject, ListObjects), a
response status outside that operation's accepted set (200, plus 206
for GetObjectRange only) makes the operation return an error carrying
exactly that status code and the full response body text, and no
success result. -/
theorem C1_error_carries_status_and_body (c : Client) (b k pre : String)
    (startPos endPos : Int) (resp : Response) (decoded : Option ListBucketResult) :
    (resp.statusCode ≠ 200 →
      MakeBucket c b resp =
        .error (.operationError "failed to create bucket" resp.body resp.statusCode)) ∧
    (resp.statusCode ≠ 200 →
      DeleteBucket c b resp =
        .error (.operationError "failed to delete bucket" resp.body resp.statusCode)) ∧
    (resp.statusCode ≠ 200 →
      PutObject c b k resp =
        .error (.operationError "failed to upload object" resp.body resp.statusCode)) ∧
    (resp.statusCode ≠ 200 →
      GetObject c b k resp =
        .error (.operationError "failed to get object" resp.body resp.statusCode)) ∧
    (resp.statusCode ≠ 200 → resp.statusCode ≠ 206 →
      GetObjectRange c b k startPos endPos resp =
        .error (.operationError "failed to get object" resp.body resp.statusCode)) ∧
    (resp.statusCode ≠ 200 →
      DeleteObject c b k resp =
        .error (.operationError "failed to delete object" resp.body resp.statusCode)) ∧
    (resp.statusCode ≠ 200 →
      HeadObject c b k resp =
        .error (.operationError "failed to get object metadata" resp.body resp.statusCode)) ∧
    (resp.statusCode ≠ 200 →
      ListObjects c b pre resp decoded =
        .error (.operationError "failed to list objects" resp.body resp.statusCode)) := by
  refine ⟨fun h => ?_, fun h => ?_, fun h => ?_, fun h => ?_, fun h h6 => ?_,
    fun h => ?_, fun h => ?_, fun h => ?_⟩
  · simp [MakeBucket, h]
  · simp [DeleteBucket, h]
  · simp [PutObject, h]
  · simp [GetObject, h]
  · simp [GetObjectRange, h, h6]
  · simp [DeleteObject, h]
  · simp [HeadObject, h]
  · simp [ListObjects, h]

/-- C1 witness: the theorem applied to a concrete 500 response, for
every operation. -/
theorem C1_error_carries_status_and_body_witness :
    MakeBucket cDemo "b" respBad =
      .error (.operationError "failed to create bucket" "boom" 500) ∧
    DeleteBucket cDemo "b" respBad =
      .error (.operationError "failed to delete bucket" "boom" 500) ∧
    PutObject cDemo "b" "k" respBad =
      .error (.operationError "failed to upload object" "boom" 500) ∧
    GetObject cDemo "b" "k" respBad =
      .error (.operationError "failed to get object" "boom" 500) ∧
    GetObjectRange cDemo "b" "k" 0 5 respBad =
      .error (.operationError "failed to get object" "boom" 500) ∧
    DeleteObject cDemo "b" "k" respBad =
      .error (.operationError "failed to delete object" "boom" 500) ∧
    HeadObject cDemo "b" "k" respBad =
      .error (.operationError "failed to get object metadata" "boom" 500) ∧
    ListObjects cDemo "b" "p" respBad none =
      .error (.operationError "failed to list objects" "boom" 500) := by
  have h := C1_error_carries_status_and_body cDemo "b" "k" "p" 0 5 respBad none
  exact ⟨h.1 (by decide), h.2.1 (by decide), h.2.2.1 (by decide), h.2.2.2.1 (by decide),
    h.2.2.2.2.1 (by decide) (by decide), h.2.2.2.2.2.1 (by decide),
    h.2.2.2.2.2.2.1 (by decide), h.2.2.2.2.2.2.2 (by decide)⟩

/-- C2: the GetObjectRange request carries the header
`Range: bytes=<start>-<end>` if and only if `start > 0` or `end > 0`;
in particular with start = 0 and end = 0 no Range header is set and the
request is an ordinary full read (no header at all is set). -/
theorem C2_range_header_iff (c : Client) (b k : String) (startPos endPos : Int) :
    (startPos > 0 ∨ endPos > 0 →
      (GetObjectRange_request c b k startPos endPos).headers =
        [("Range", "bytes=" ++ toString startPos ++ "-" ++ toString endPos)]) ∧
    (¬(startPos > 0 ∨ endPos > 0) →
      (GetObjectRange_request c b k startPos endPos).headers = []) := by
  constructor <;> intro h <;> simp [GetObjectRange_request, setHeader, h]

/-- C2 witness: a range 0–5 sets the header, and range 0–0 sets none. -/
theorem C2_range_header_iff_witness :
    (GetObjectRange_request cDemo "b" "k" 0 5).headers = [("Range", "bytes=0-5")] ∧
    (GetObjectRange_request cDemo "b" "k" 0 0).headers = [] := by
  constructor
  · have h := (C2_range_header_iff cDemo "b" "k" 0 5).1 (Or.inr (by decide))
    simpa using h
  · exact (C2_range_header_iff cDemo "b" "k" 0 0).2 (by decide)

/-- C3 counterexample: with requested prefix "photos/" and a 200
response whose decoded contents hold the key "docs/c.txt", ListObjects
succeeds and returns that key, which does not begin with the prefix —
the client performs no client-side prefix filtering. -/
theorem C3_prefix_counterexample :
    ListObjects cDemo "b" "photos/" listResp (some decodedMixed) = .ok decodedMixed.Contents ∧
    decodedMixed.Contents.all (fun o => "photos/".data.isPrefixOf o.Key.data) = false := by
  exact ⟨rfl, rfl⟩

/-- C3 (amended): ListObjects forwards a non-empty prefix as the URL
query parameter `prefix` and, on a 200 response, returns the decoded
XML document's Contents entries unchanged and in order; it does not
filter them, so every returned key begins with the prefix exactly when
every entry the server sent does. -/
theorem C3_list_returns_decoded_contents (c : Client) (b pre : String)
    (resp : Response) (r : ListBucketResult) (h : resp.statusCode = 200) :
    ListObjects c b pre resp (some r) = .ok r.Contents ∧
    (pre ≠ "" → (ListObjects_request c b pre).url =
      c.baseURL ++ "/api/" ++ b ++ "?" ++ ("prefix=" ++ queryEscape pre)) ∧
    (pre = "" → (ListObjects_request c b pre).url = c.baseURL ++ "/api/" ++ b) ∧
    ((∀ o ∈ r.Contents, pre.data.isPrefixOf o.Key.data) →
      ∀ l, ListObjects c b pre resp (some r) = .ok l →
        ∀ o ∈ l, pre.data.isPrefixOf o.Key.data) := by
  refine ⟨by simp [ListObjects, h], fun hp => ?_, fun hp => ?_, fun hall l hl o ho => ?_⟩
  · simp [ListObjects_request, hp]
  · simp [ListObjects_request, hp]
  · have : l = r.Contents := by
      simp [ListObjects, h] at hl
      exact hl.symm
    exact hall o (this ▸ ho)

/-- C3 witness: the amended theorem applied to a concrete listing whose
keys all carry the prefix. -/
theorem C3_list_returns_decoded_contents_witness :
    ListObjects cDemo "b" "photos/" listResp (some decodedPhotos) = .ok decodedPhotos.Contents ∧
    (ListObjects_request cDemo "b" "photos/").url =
      cDemo.baseURL ++ "/api/" ++ "b" ++ "?" ++ ("prefix=" ++ queryEscape "photos/") ∧
    (∀ l, ListObjects cDemo "b" "photos/" listResp (some decodedPhotos) = .ok l →
      ∀ o ∈ l, "photos/".data.isPrefixOf o.Key.data) := by
  have h := C3_list_returns_decoded_contents cDemo "b" "photos/" listResp decodedPhotos rfl
  exact ⟨h.1, h.2.1 (by decide), h.2.2.2 (by decide)⟩

/-- C4 counterexample: a 200 upload response whose body contains a
thumbnail-labeled line with last token "http://t" but no preview label;
the claim says ThumbnailURL should be populated independently, yet the
code leaves it empty because the scan only runs when the preview label
occurs in the body. -/
theorem C4_thumbnail_not_independent :
    strContains respThumbOnly.body thumbLabel = true ∧
    lastTok respThumbOnly.body = "http://t" ∧
    PutObject cDemo "b" "k" respThumbOnly =
      .ok { Key := "k", ETag := "abc", PreviewURL := "", ThumbnailURL := "" } := by
  exact ⟨rfl, rfl, rfl⟩

/-- C4 (amended): the line scan runs only when the preview label occurs
somewhere in the body.  In that case each URL field is set to the last
whitespace-separated token of the last line that contains its label and
has at least two tokens (and stays empty when no such line exists);
when the preview label is absent, both fields stay empty even if a
thumbnail-labeled line occurs. -/
theorem C4_url_scan (c : Client) (b k : String) (resp : Response)
    (h : resp.statusCode = 200) :
    (strContains resp.body previewLabel = false →
      PutObject c b k resp =
        .ok { Key := k, ETag := resp.header "ETag", PreviewURL := "", ThumbnailURL := "" }) ∧
    (strContains resp.body previewLabel = true →
      PutObject c b k resp =
        .ok { Key := k, ETag := resp.header "ETag",
              PreviewURL := scanTok isPreviewLine "" (splitStr (Char.ofNat 10) resp.body),
              ThumbnailURL := scanTok isThumbLine "" (splitStr (Char.ofNat 10) resp.body) }) := by
  constructor <;> intro hc
  · simp [PutObject, h, extractURLs, hc]
  · simp [PutObject, h, extractURLs, hc, foldl_scanLine]

/-- C4 witness: the amended theorem applied to a concrete body holding
both labeled lines. -/
theorem C4_url_scan_witness :
    PutObject cDemo "b" "k" respBothURLs =
      .ok { Key := "k", ETag := respBothURLs.header "ETag",
            PreviewURL := scanTok isPreviewLine "" (splitStr (Char.ofNat 10) respBothURLs.body),
            ThumbnailURL := scanTok isThumbLine "" (splitStr (Char.ofNat 10) respBothURLs.body) } ∧
    scanTok isPreviewLine "" (splitStr (Char.ofNat 10) respBothURLs.body) = "http://p" ∧
    scanTok isThumbLine "" (splitStr (Char.ofNat 10) respBothURLs.body) = "http://t" := by
  refine ⟨(C4_url_scan cDemo "b" "k" respBothURLs rfl).2 (by decide), by decide, by decide⟩

/-- C5: every successful PutObject returns an UploadResult whose Key is
the requested object key and whose ETag is the value of the response's
ETag header, whatever else the response contains. -/
theorem C5_key_and_etag (c : Client) (b k : String) (resp : Response)
    (h : resp.statusCode = 200) :
    (PutObject c b k resp).map (fun r => (r.Key, r.ETag)) = .ok (k, resp.header "ETag") := by
  simp [PutObject, h, Except.map, extractURLs_key, extractURLs_etag]

/-- C5 witness: the theorem applied to a concrete upload response. -/
theorem C5_key_and_etag_witness :
    (PutObject cDemo "b" "hello.txt" respOK).map (fun r => (r.Key, r.ETag)) =
      .ok ("hello.txt", "\"e1\"") := by
  have h := C5_key_and_etag cDemo "b" "hello.txt" respOK rfl
  simpa using h

/-- C6 counterexample: a 200 HEAD response with no Content-Length
header yields Size = -1 (Go's "length unknown" value for
`Response.ContentLength`), violating Size ≥ 0. -/
theorem C6_size_counterexample :
    (HeadObject cDemo "b" "k" respNoHeaders).map (fun i => i.Size) = .ok (-1) ∧
    (HeadObject cDemo "b" "k" respNoHeaders).map (fun i => decide (0 ≤ i.Size)) =
      .ok false := by
  exact ⟨rfl, rfl⟩

/-- C6 (amended): a successful HeadObject's Size equals the response's
derived content length, which is nonnegative exactly when the response
carries a valid Content-Length header and is -1 (unknown) otherwise. -/
theorem C6_size_from_content_length (c : Client) (b k : String) (resp : Response)
    (h : resp.statusCode = 200) :
    (HeadObject c b k resp).map (fun i => i.Size) = .ok resp.contentLength ∧
    (∀ n, parseDigits (resp.header "Content-Length") = some n →
      resp.contentLength = (n : Int) ∧ 0 ≤ resp.contentLength) ∧
    (parseDigits (resp.header "Content-Length") = none → resp.contentLength = -1) := by
  refine ⟨by simp [HeadObject, h, Except.map], fun n hn => ?_, fun hn => ?_⟩
  · constructor
    · simp [Response.contentLength, hn]
    · simp [Response.contentLength, hn]
  · simp [Response.contentLength, hn]

/-- C6 witness: the amended theorem applied to a response with
Content-Length 13. -/
theorem C6_size_from_content_length_witness :
    (HeadObject cDemo "b" "k" respOK).map (fun i => i.Size) = .ok respOK.contentLength ∧
    respOK.contentLength = (13 : Int) ∧ 0 ≤ respOK.contentLength := by
  have h := C6_size_from_content_length cDemo "b" "k" respOK rfl
  exact ⟨h.1, h.2.1 13 (by decide)⟩

/-- C7: the requests built by MakeBucket, DeleteBucket, PutObject and
DeleteObject carry both `Authorization: Bearer <key>` and
`X-API-Key: <key>` when the configured API key is non-empty, and
neither header when it is empty. -/
theorem C7_auth_headers (c : Client) (b k content fn : String) :
    (c.apiKey ≠ "" →
      getHeader (MakeBucket_request c b).headers "Authorization" = "Bearer " ++ c.apiKey ∧
      getHeader (MakeBucket_request c b).headers "X-API-Key" = c.apiKey ∧
      getHeader (DeleteBucket_request c b).headers "Authorization" = "Bearer " ++ c.apiKey ∧
      getHeader (DeleteBucket_request c b).headers "X-API-Key" = c.apiKey ∧
      getHeader (PutObject_request c b k content fn).headers "Authorization" =
        "Bearer " ++ c.apiKey ∧
      getHeader (PutObject_request c b k content fn).headers "X-API-Key" = c.apiKey ∧
      getHeader (DeleteObject_request c b k).headers "Authorization" = "Bearer " ++ c.apiKey ∧
      getHeader (DeleteObject_request c b k).headers "X-API-Key" = c.apiKey) ∧
    (c.apiKey = "" →
      hasHeader (MakeBucket_request c b).headers "Authorization" = false ∧
      hasHeader (MakeBucket_request c b).headers "X-API-Key" = false ∧
      hasHeader (DeleteBucket_request c b).headers "Authorization" = false ∧
      hasHeader (DeleteBucket_request c b).headers "X-API-Key" = false ∧
      hasHeader (PutObject_request c b k content fn).headers "Authorization" = false ∧
      hasHeader (PutObject_request c b k content fn).headers "X-API-Key" = false ∧
      hasHeader (DeleteObject_request c b k).headers "Authorization" = false ∧
      hasHeader (DeleteObject_request c b k).headers "X-API-Key" = false) := by
  constructor
  · intro h
    exact ⟨(addAuth_auth_headers c _ h).1, (addAuth_auth_headers c _ h).2,
      (addAuth_auth_headers c _ h).1, (addAuth_auth_headers c _ h).2,
      (addAuth_auth_headers c _ h).1, (addAuth_auth_headers c _ h).2,
      (addAuth_auth_headers c _ h).1, (addAuth_auth_headers c _ h).2⟩
  · intro h
    rw [MakeBucket_request, DeleteBucket_request, PutObject_request, DeleteObject_request,
      addAuth_of_empty c _ h, addAuth_of_empty c _ h, addAuth_of_empty c _ h,
      addAuth_of_empty c _ h]
    refine ⟨rfl, rfl, rfl, rfl, ?_, ?_, rfl, rfl⟩ <;> rfl

/-- C7 witness: the theorem applied to a keyed client and a keyless
client. -/
theorem C7_auth_headers_witness :
    getHeader (MakeBucket_request cDemo "b").headers "Authorization" = "Bearer secret" ∧
    getHeader (PutObject_request cDemo "b" "k" "data" "f.txt").headers "X-API-Key" = "secret" ∧
    hasHeader (PutObject_request cNoKey "b" "k" "data" "f.txt").headers "Authorization" = false ∧
    hasHeader (DeleteObject_request cNoKey "b" "k").headers "X-API-Key" = false := by
  have h1 := (C7_auth_headers cDemo "b" "k" "data" "f.txt").1 (by decide)
  have h2 := (C7_auth_headers cNoKey "b" "k" "data" "f.txt").2 (by decide)
  exact ⟨h1.1, h1.2.2.2.2.2.1, h2.2.2.2.2.1, h2.2.2.2.2.2.2.2⟩

/-- C8: NewClient strips all trailing slashes from the configured base
URL: clients built from `b ++ "/"` and from `b` give the same
GetObjectURL, which is `strippedBase ++ "/api/" ++ bucket ++ "/" ++ key`. -/
theorem C8_trailing_slash_stripped (b apiK bucket key : String) :
    GetObjectURL (NewClient { BaseURL := b ++ "/", APIKey := apiK }) bucket key =
      GetObjectURL (NewClient { BaseURL := b, APIKey := apiK }) bucket key ∧
    GetObjectURL (NewClient { BaseURL := b, APIKey := apiK }) bucket key =
      trimRightSlash b ++ "/api/" ++ bucket ++ "/" ++ key := by
  constructor
  · simp [GetObjectURL, NewClient, trimRightSlash_append_slash]
  · rfl

/-- C9: PutObjectFromFile never opens a local file: it issues an HTTP
HEAD request to filePath through `http.DefaultClient` (not the client's
configured transport); a HEAD failure aborts before any upload, and on
HEAD success the upload request carries the HEAD response's body as the
multipart file content under the base name of filePath. -/
theorem C9_head_then_upload (c : Client) (b k fp e : String) (file uploadResp : Response) :
    (PutObjectFromFile_headRequest fp).method = .HEAD ∧
    (PutObjectFromFile_headRequest fp).url = fp ∧
    (PutObjectFromFile_headRequest fp).viaClient = .defaultClient ∧
    (PutObjectFromFile_uploadRequest c b k fp file).method = .PUT ∧
    (PutObjectFromFile_uploadRequest c b k fp file).viaClient = .configured ∧
    (PutObjectFromFile_uploadRequest c b k fp file).body =
      .multipart "file" (filepathBase fp) file.body ∧
    PutObjectFromFile c b k fp (.error e) uploadResp =
      .error (.transportError ("failed to open file: " ++ e)) ∧
    PutObjectFromFile c b k fp (.ok file) uploadResp = PutObject c b k uploadResp := by
  refine ⟨rfl, rfl, rfl, ?_, ?_, ?_, rfl, rfl⟩
  · rw [PutObjectFromFile_uploadRequest, PutObject_request, addAuth_method]
  · rw [PutObjectFromFile_uploadRequest, PutObject_request, addAuth_viaClient]
  · rw [PutObjectFromFile_uploadRequest, PutObject_request, addAuth_body]

/-- C10: a 200 HeadObject response whose Last-Modified header is absent
or not a valid HTTP date still succeeds; the parse error is discarded
and the returned LastModified is the zero timestamp. -/
theorem C10_lastModified_zero_on_bad_date (c : Client) (b k : String) (resp : Response)
    (h200 : resp.statusCode = 200)
    (hparse : parseHTTPTime (resp.header "Last-Modified") = none) :
    (HeadObject c b k resp).map (fun i => i.LastModified) = .ok zeroGoTime := by
  simp [HeadObject, h200, hparse, Except.map]

/-- C10 witness: the theorem applied to a 200 response with no
Last-Modified header at all (lookup yields "", which does not parse). -/
theorem C10_lastModified_zero_on_bad_date_witness :
    parseHTTPTime (respNoHeaders.header "Last-Modified") = none ∧
    (HeadObject cDemo "b" "k" respNoHeaders).map (fun i => i.LastModified) =
      .ok zeroGoTime := by
  exact ⟨rfl, C10_lastModified_zero_on_bad_date cDemo "b" "k" respNoHeaders rfl rfl⟩

end GTMStorage
